import Mathlib

/-!
Verification of the SSH upload tool (`upload.py`).

The Python program is shallowly embedded.  Every remote interaction goes
through an oracle `ex : String → CmdResult` that gives, for each remote
command string, the (stdout, stderr, exit status) triple the remote side
would produce; the SCP transfer and the local-file existence test are
likewise abstracted as oracle parameters (`scpOk`, `localExists`).  Each
operation returns the list of remote operations it issued, the log lines it
emitted, and — since the Python code can raise (`AttributeError` on a `None`
client, `paramiko` exceptions on `connect`) — an `Option String` that is
`some msg` exactly when an exception propagated out of the function.
-/

/-- Severity of a log line (`logger.info` / `logger.warning` / `logger.error`). -/
inductive LogLevel where
  | info
  | warning
  | error
  deriving DecidableEq, Repr

/-- One emitted log line. -/
structure LogLine where
  level : LogLevel
  msg : String
  deriving DecidableEq, Repr

/-- Result of one remote command execution: the (stdout, stderr, exit status)
triple produced by `exec_command` plus `recv_exit_status`. -/
structure CmdResult where
  stdoutStr : String
  stderrStr : String
  exitStatus : Int
  deriving DecidableEq, Repr

/-- A remote interaction issued by the tool: either an SCP file transfer or a
shell command executed via `exec_command`. -/
inductive RemoteOp where
  | scpTransfer (localPath remotePath : String)
  | shellCmd (cmd : String)
  deriving DecidableEq, Repr

/-- Outcome of one operation (`check_sudo_privileges`, `create_remote_directory`,
`upload_file`, `list_directory`): whether an exception propagated (`raised`),
the remote operations issued in order (`ops`), the log lines emitted in order
(`logs`), and the returned boolean where the Python function returns one
(`value`; `true` for functions returning `None`). -/
structure OpOut where
  raised : Option String
  ops : List RemoteOp
  logs : List LogLine
  value : Bool
  deriving DecidableEq, Repr

/-- Message of the `AttributeError` Python raises when a method is looked up on
a `None` ssh client. -/
def noneClientError : String :=
  "AttributeError: NoneType object has no attribute"

/-- Model of `os.path.basename`: the component after the last slash. -/
def basename (p : String) : String :=
  (p.splitOn "/").getLastD p

/-- Model of `check_sudo_privileges(ssh_client)`: runs `sudo -l`; exit status 0
means the user has sudo privileges.  A `None` client raises before any remote
command is issued. -/
def check_sudo_privileges (client : Option (String → CmdResult)) : OpOut :=
  match client with
  | none => ⟨some noneClientError, [], [], false⟩
  | some ex =>
    let r := ex "sudo -l"
    if r.exitStatus = 0 then
      ⟨none, [RemoteOp.shellCmd "sudo -l"],
        [⟨LogLevel.info, "User has sudo privileges"⟩], true⟩
    else
      ⟨none, [RemoteOp.shellCmd "sudo -l"],
        [⟨LogLevel.error, "User does not have sudo privileges: " ++ r.stderrStr⟩], false⟩

/-- The existence probe issued by `create_remote_directory`:
`sudo -S ls {remote_dir}`. -/
def command_check (remote_dir : String) : String :=
  "sudo -S ls " ++ remote_dir

/-- The creation command issued by `create_remote_directory`:
`echo {password} | sudo -S mkdir -p {remote_dir}`. -/
def mkdir_command (password remote_dir : String) : String :=
  "echo " ++ password ++ " | sudo -S mkdir -p " ++ remote_dir

/-- Model of `create_remote_directory(ssh_client, remote_dir, password)`:
probe existence with `sudo -S ls`; exit status 0 stops (already exists);
otherwise issue one `mkdir -p` creation command with the password piped to
`sudo -S`.  A `None` client raises at the first `exec_command` (after the
initial info log). -/
def create_remote_directory (client : Option (String → CmdResult))
    (remote_dir password : String) : OpOut :=
  let l0 : LogLine := ⟨LogLevel.info, "Creating remote directory: " ++ remote_dir⟩
  match client with
  | none => ⟨some noneClientError, [], [l0], true⟩
  | some ex =>
    let r1 := ex (command_check remote_dir)
    let checkLogs : List LogLine :=
      [l0,
       ⟨LogLevel.info, "Check directory command: " ++ command_check remote_dir⟩,
       ⟨LogLevel.info, "Check directory stdout: " ++ r1.stdoutStr⟩,
       ⟨LogLevel.info, "Check directory stderr: " ++ r1.stderrStr⟩,
       ⟨LogLevel.info, "Check directory exit status: " ++ toString r1.exitStatus⟩]
    if r1.exitStatus = 0 then
      ⟨none, [RemoteOp.shellCmd (command_check remote_dir)],
        checkLogs ++ [⟨LogLevel.info, "Remote directory " ++ remote_dir ++ " already exists"⟩],
        true⟩
    else
      let r2 := ex (mkdir_command password remote_dir)
      let createLogs : List LogLine :=
        [⟨LogLevel.warning,
           "Remote directory " ++ remote_dir ++ " does not exist or cannot be accessed"⟩,
         ⟨LogLevel.info, "Create directory command: " ++ mkdir_command password remote_dir⟩,
         ⟨LogLevel.info, "Create directory stdout: " ++ r2.stdoutStr⟩,
         ⟨LogLevel.info, "Create directory stderr: " ++ r2.stderrStr⟩,
         ⟨LogLevel.info, "Create directory exit status: " ++ toString r2.exitStatus⟩]
      let tailLog : LogLine :=
        if r2.exitStatus = 0 then
          ⟨LogLevel.info, "Successfully created remote directory " ++ remote_dir⟩
        else
          ⟨LogLevel.error,
            "Failed to create remote directory " ++ remote_dir ++ ": " ++ r2.stderrStr⟩
      ⟨none,
        [RemoteOp.shellCmd (command_check remote_dir),
         RemoteOp.shellCmd (mkdir_command password remote_dir)],
        checkLogs ++ createLogs ++ [tailLog], true⟩

/-- The staging path used by `upload_file`: `/tmp/{basename(local_file_path)}`. -/
def temp_remote_path (local_file_path : String) : String :=
  "/tmp/" ++ basename local_file_path

/-- The relocation command of `upload_file`:
`echo {password} | sudo -S mv {tmpPath} {remote_file_path}`. -/
def mv_command (password tmpPath remote_file_path : String) : String :=
  "echo " ++ password ++ " | sudo -S mv " ++ tmpPath ++ " " ++ remote_file_path

/-- The line-ending normalization command of `upload_file`:
`echo {password} | sudo -S sed -i "s/\r$//" {remote_file_path}`. -/
def convert_line_endings_command (password remote_file_path : String) : String :=
  "echo " ++ password ++ " | sudo -S sed -i \"s/\\r$//\" " ++ remote_file_path

/-- The ownership-change command of `upload_file`:
`echo {password} | sudo -S chown mysite:mysite {remote_file_path}`. -/
def chown_command (password remote_file_path : String) : String :=
  "echo " ++ password ++ " | sudo -S chown mysite:mysite " ++ remote_file_path

/-- The permission-change command of `upload_file`:
`echo {password} | sudo -S chmod +x {remote_file_path}`. -/
def chmod_command (password remote_file_path : String) : String :=
  "echo " ++ password ++ " | sudo -S chmod +x " ++ remote_file_path

/-- Model of `upload_file(ssh_client, local_file_path, remote_file_path,
password)`.  Parameters: `localExists` models `os.path.exists`, `scpOk` models
whether `scp.put` completes without raising `SCPException` (the exception text
is abstracted).  The function mirrors the source's strictly ordered,
short-circuiting five-step sequence: staged SCP transfer to `/tmp`, privileged
`mv`, `sed` line-ending normalization, `chown mysite:mysite`, `chmod +x`; each
non-zero exit status logs an error and returns.  A `None` client raises at
`ssh_client.get_transport()` — but only after the local existence precheck. -/
def upload_file (client : Option (String → CmdResult)) (localExists : String → Bool)
    (scpOk : Bool) (local_file_path remote_file_path password : String) : OpOut :=
  if localExists local_file_path = false then
    ⟨none, [],
      [⟨LogLevel.error, "Local file " ++ local_file_path ++ " does not exist"⟩], true⟩
  else
    match client with
    | none => ⟨some noneClientError, [], [], true⟩
    | some ex =>
      let tmp := temp_remote_path local_file_path
      if scpOk = false then
        ⟨none, [RemoteOp.scpTransfer local_file_path tmp],
          [⟨LogLevel.error, "SCP transfer failed for " ++ local_file_path⟩], true⟩
      else
        let r1 := ex (mv_command password tmp remote_file_path)
        if r1.exitStatus = 0 then
          let successLog : LogLine :=
            ⟨LogLevel.info,
              "Successfully uploaded " ++ local_file_path ++ " to " ++ remote_file_path⟩
          let r2 := ex (convert_line_endings_command password remote_file_path)
          if r2.exitStatus = 0 then
            let sedLog : LogLine :=
              ⟨LogLevel.info,
                "Successfully converted line endings of " ++ remote_file_path ++ " to LF"⟩
            let r3 := ex (chown_command password remote_file_path)
            if r3.exitStatus ≠ 0 then
              ⟨none,
                [RemoteOp.scpTransfer local_file_path tmp,
                 RemoteOp.shellCmd (mv_command password tmp remote_file_path),
                 RemoteOp.shellCmd (convert_line_endings_command password remote_file_path),
                 RemoteOp.shellCmd (chown_command password remote_file_path)],
                [successLog, sedLog,
                 ⟨LogLevel.error,
                   "Failed to change ownership of " ++ remote_file_path
                     ++ " to mysite:mysite: " ++ r3.stderrStr⟩], true⟩
            else
              let r4 := ex (chmod_command password remote_file_path)
              if r4.exitStatus ≠ 0 then
                ⟨none,
                  [RemoteOp.scpTransfer local_file_path tmp,
                   RemoteOp.shellCmd (mv_command password tmp remote_file_path),
                   RemoteOp.shellCmd (convert_line_endings_command password remote_file_path),
                   RemoteOp.shellCmd (chown_command password remote_file_path),
                   RemoteOp.shellCmd (chmod_command password remote_file_path)],
                  [successLog, sedLog,
                   ⟨LogLevel.error,
                     "Failed to make " ++ remote_file_path ++ " executable: "
                       ++ r4.stderrStr⟩], true⟩
              else
                ⟨none,
                  [RemoteOp.scpTransfer local_file_path tmp,
                   RemoteOp.shellCmd (mv_command password tmp remote_file_path),
                   RemoteOp.shellCmd (convert_line_endings_command password remote_file_path),
                   RemoteOp.shellCmd (chown_command password remote_file_path),
                   RemoteOp.shellCmd (chmod_command password remote_file_path)],
                  [successLog, sedLog], true⟩
          else
            ⟨none,
              [RemoteOp.scpTransfer local_file_path tmp,
               RemoteOp.shellCmd (mv_command password tmp remote_file_path),
               RemoteOp.shellCmd (convert_line_endings_command password remote_file_path)],
              [successLog,
               ⟨LogLevel.error,
                 "Failed to convert line endings of " ++ remote_file_path ++ " to LF: "
                   ++ r2.stderrStr⟩], true⟩
        else
          ⟨none,
            [RemoteOp.scpTransfer local_file_path tmp,
             RemoteOp.shellCmd (mv_command password tmp remote_file_path)],
            [⟨LogLevel.error,
               "Failed to move " ++ tmp ++ " to " ++ remote_file_path ++ ": "
                 ++ r1.stderrStr⟩], true⟩

/-- The listing command of `list_directory`: `ls -lh {remote_dir}`. -/
def ls_command (remote_dir : String) : String :=
  "ls -lh " ++ remote_dir

/-- Model of `list_directory(ssh_client, remote_dir)`: one `ls -lh` command;
status 0 logs the contents, otherwise the error text.  A `None` client raises
at `exec_command`. -/
def list_directory (client : Option (String → CmdResult)) (remote_dir : String) : OpOut :=
  match client with
  | none => ⟨some noneClientError, [], [], true⟩
  | some ex =>
    let r := ex (ls_command remote_dir)
    if r.exitStatus = 0 then
      ⟨none, [RemoteOp.shellCmd (ls_command remote_dir)],
        [⟨LogLevel.info, "Directory contents of " ++ remote_dir ++ ":\n" ++ r.stdoutStr⟩],
        true⟩
    else
      ⟨none, [RemoteOp.shellCmd (ls_command remote_dir)],
        [⟨LogLevel.error, "Failed to list directory " ++ remote_dir ++ ": " ++ r.stderrStr⟩],
        true⟩

/-- Model of the `SSHConfig` object: the four connection parameters and the
`_ssh_client` field (`none` = Python `None`; `some ex` = a live paramiko client
whose `exec_command` behaves as the oracle `ex`). -/
structure SSHConfig where
  hostname : String
  port : Int
  username : String
  password : String
  ssh_client : Option (String → CmdResult)

/-- Model of `SSHConfig._valid_details`: Python truthiness of all four
parameters (non-empty strings, non-zero port). -/
def valid_details (c : SSHConfig) : Bool :=
  (c.hostname != "") && (c.port != 0) && (c.username != "") && (c.password != "")

/-- Model of `SSHConfig.connect`: when the details are valid it creates a fresh
paramiko client, which performs exactly one `client.connect` authentication
attempt (`_create_ssh_client`); with invalid details it does nothing.
`connectRaises` models whether the underlying `client.connect` call raises
(e.g. `AuthenticationException`), in which case the exception propagates
(`none`).  The second component counts the authentication attempts made. -/
def SSHConfig.connect (connectRaises : Bool) (ex : String → CmdResult)
    (c : SSHConfig) : Option SSHConfig × Nat :=
  if valid_details c then
    if connectRaises then (none, 1)
    else (some { c with ssh_client := some ex }, 1)
  else (some c, 0)

/-- Model of `SSHConfig.is_connected`: `False` on a `None` client, otherwise
the transport must report active (checked twice, as in the source) and
authenticated. -/
def SSHConfig.is_connected (transportActive transportAuthenticated : Bool)
    (c : SSHConfig) : Bool :=
  match c.ssh_client with
  | none => false
  | some _ => transportActive && transportActive && transportAuthenticated

/-- Model of `SSHConfig.close`: closes the underlying client when one is
present.  Returns whether the underlying `close()` ran, plus the log line
emitted. -/
def SSHConfig.close (c : SSHConfig) : Bool × List LogLine :=
  match c.ssh_client with
  | some _ => (true, [⟨LogLevel.info, "SSH session closed"⟩])
  | none => (false, [])

/-- Arguments reaching `execute_command`: the command name (`none` when argparse
parsed no subcommand), the password, and the three optional positional
arguments (`none` models both an absent attribute and an argparse `None`). -/
structure CmdArgs where
  command : Option String
  password : String
  dir_path : Option String
  local_path : Option String
  remote_path : Option String

/-- Ambient facts `execute_command` needs: the ssh client (or `None`), the
local-filesystem existence oracle and whether an SCP transfer would succeed. -/
structure RunEnv where
  client : Option (String → CmdResult)
  localExists : String → Bool
  scpOk : Bool

/-- Outcome of `execute_command`: `raised` (an uncaught exception), the
returned boolean (`False` only for the `exit` command), the number of
interactive prompts shown, the remote operations issued, the logs, and the
lines printed to stdout. -/
structure ExecResult where
  raised : Option String
  value : Bool
  promptCount : Nat
  remoteOps : List RemoteOp
  logs : List LogLine
  prints : List String
  deriving Repr

/-- Model of Python `str.strip()`: drop whitespace from both ends.  (Defined
structurally over the character list so that it evaluates by `decide`/`rfl`;
`String.trim` is extensionally the same but not kernel-reducible.) -/
def pyStrip (s : String) : String :=
  ⟨((s.data.dropWhile Char.isWhitespace).reverse.dropWhile Char.isWhitespace).reverse⟩

/-- Model of the Python idiom `x or input(prompt).strip()`: a present,
non-empty value is used as is; `None` or the empty string falls back to the
next queued interactive reply, stripped.  Returns the resolved value, the
remaining reply queue and the number of prompts shown (0 or 1). -/
def pyOrPrompt (v : Option String) (q : List String) : String × List String × Nat :=
  match v with
  | some s => if s = "" then (pyStrip (q.headD ""), q.drop 1, 1) else (s, q, 0)
  | none => (pyStrip (q.headD ""), q.drop 1, 1)

/-- The help text printed by `display_help`. -/
def help_text : String :=
  "\nAvailable Commands:\n  check_sudo           - Check sudo privileges on the remote server\n  create_dir PATH      - Create a remote directory at PATH\n  upload LOCAL REMOTE  - Upload a file from LOCAL path to REMOTE path\n  dir PATH             - List contents of directory at PATH\n  help (or h)          - Show this help message\n  exit                 - Exit the application\n"

/-- Lift an operation's outcome into an `ExecResult` (the dispatcher ignores
the operations' return values and returns `True`). -/
def ofOp (op : OpOut) (promptCount : Nat) : ExecResult :=
  ⟨op.raised, true, promptCount, op.ops, op.logs, []⟩

/-- Model of `execute_command(ssh, args)`: dispatch on the command name;
missing positional arguments are solicited with `input(...)` (the queue `q`
holds the user's replies); `help` aliases print the help text; `exit` returns
`False`; anything else prints a diagnostic. -/
def execute_command (env : RunEnv) (q : List String) (args : CmdArgs) : ExecResult :=
  match args.command with
  | some "check_sudo" => ofOp (check_sudo_privileges env.client) 0
  | some "create_dir" =>
    let p := pyOrPrompt args.dir_path q
    ofOp (create_remote_directory env.client p.1 args.password) p.2.2
  | some "upload" =>
    let p1 := pyOrPrompt args.local_path q
    let p2 := pyOrPrompt args.remote_path p1.2.1
    ofOp (upload_file env.client env.localExists env.scpOk p1.1 p2.1 args.password)
      (p1.2.2 + p2.2.2)
  | some "dir" =>
    let p := pyOrPrompt args.dir_path q
    ofOp (list_directory env.client p.1) p.2.2
  | some "help" => ⟨none, true, 0, [], [], [help_text]⟩
  | some "h" => ⟨none, true, 0, [], [], [help_text]⟩
  | some "-h" => ⟨none, true, 0, [], [], [help_text]⟩
  | some "--help" => ⟨none, true, 0, [], [], [help_text]⟩
  | some "exit" => ⟨none, false, 0, [], [], []⟩
  | _ => ⟨none, true, 0, [], [], ["Unknown command. Type 'help' for available commands."]⟩

/-- One iteration's worth of outside world for the interactive loop: either the
`input("upload> ")` call is interrupted (`KeyboardInterrupt`), or it yields a
line `s`; `execFault` abstracts whether executing that line's command raises an
exception (with its message) — the loop catches it at `except Exception`.  The
loop ignores `execute_command`'s return value, so command execution is
abstracted to its fault behavior here. -/
inductive LoopEvent where
  | interrupt
  | line (s : String) (execFault : Option String)
  deriving Repr

/-- Observable outcome of the interactive loop on a finite event list: whether
it terminated (via the literal `exit` line) and what it printed. -/
structure LoopOut where
  terminated : Bool
  outputs : List String
  deriving Repr

/-- The notice printed on `KeyboardInterrupt`. -/
def keyboard_interrupt_notice : String :=
  "Keyboard Interrupt. Type 'exit' to quit."

/-- Model of the `while True` loop of `interactive_mode`, driven by a finite
list of input events.  Mirrors the source: strip the line; skip empty lines;
`break` only on the literal stripped `exit`; print help on the help aliases;
otherwise execute the command, catching `KeyboardInterrupt` (notice, continue)
and any other exception (report, continue). -/
def interactive_mode : List LoopEvent → LoopOut
  | [] => ⟨false, []⟩
  | LoopEvent.interrupt :: rest =>
    let r := interactive_mode rest
    ⟨r.terminated, keyboard_interrupt_notice :: r.outputs⟩
  | LoopEvent.line s fault :: rest =>
    if pyStrip s = "" then interactive_mode rest
    else if pyStrip s = "exit" then ⟨true, []⟩
    else if pyStrip s = "help" ∨ pyStrip s = "h" ∨ pyStrip s = "-h" ∨ pyStrip s = "--help" then
      let r := interactive_mode rest
      ⟨r.terminated, help_text :: r.outputs⟩
    else
      match fault with
      | some msg =>
        let r := interactive_mode rest
        ⟨r.terminated, ("Error: " ++ msg) :: r.outputs⟩
      | none => interactive_mode rest

/-- Whether an event is an input line whose stripped content is `exit`. -/
def isExitLine : LoopEvent → Bool
  | LoopEvent.line s _ => pyStrip s == "exit"
  | LoopEvent.interrupt => false

/-- The parsed command-line arguments of `main` (flags plus the optional
subcommand and its optional positionals). -/
structure MainArgs where
  name : String
  port : Int
  username : String
  password : String
  interactive : Bool
  command : Option String
  dir_path : Option String
  local_path : Option String
  remote_path : Option String

/-- The outside world `main` runs against. -/
structure MainEnv where
  connectRaises : Bool
  remoteExec : String → CmdResult
  localExists : String → Bool
  scpOk : Bool
  prompts : List String
  events : List LoopEvent

/-- How a run of `main` ends: returned normally, terminated by an uncaught
exception, or (interactive mode) never reached `exit` within the given
events. -/
inductive MainOutcome where
  | completed
  | crashed
  | hung
  deriving DecidableEq, Repr

/-- Observable outcome of `main`: how it ended, how many times `ssh.close()`
ran, how many authentication attempts were made, and whether the
no-command/help-only path was taken. -/
structure MainResult where
  outcome : MainOutcome
  closeCalls : Nat
  authAttempts : Nat
  helpShown : Bool
  deriving DecidableEq, Repr

/-- Model of `main()` (named `mainEntry` because Lean reserves `main`): with no subcommand and no `--interactive`, print help
and return (no session, no close).  Otherwise build the `SSHConfig` (whose
constructor calls `connect`), call `ssh.connect()` a second time, then run
either the interactive loop or the one-shot `execute_command` — whose uncaught
exceptions crash the process — and finally `ssh.close()`.  There is no
try/finally: `close` runs only when control reaches the last line. -/
def mainEntry (env : MainEnv) (args : MainArgs) : MainResult :=
  if args.command.isNone && !args.interactive then
    ⟨MainOutcome.completed, 0, 0, true⟩
  else
    match SSHConfig.connect env.connectRaises env.remoteExec
        ⟨args.name, args.port, args.username, args.password, none⟩ with
    | (none, n1) => ⟨MainOutcome.crashed, 0, n1, false⟩
    | (some c1, n1) =>
      match SSHConfig.connect env.connectRaises env.remoteExec c1 with
      | (none, n2) => ⟨MainOutcome.crashed, 0, n1 + n2, false⟩
      | (some c2, n2) =>
        if args.interactive then
          if (interactive_mode env.events).terminated then
            ⟨MainOutcome.completed, 1, n1 + n2, false⟩
          else
            ⟨MainOutcome.hung, 0, n1 + n2, false⟩
        else
          match (execute_command ⟨c2.ssh_client, env.localExists, env.scpOk⟩ env.prompts
              ⟨args.command, args.password, args.dir_path, args.local_path,
               args.remote_path⟩).raised with
          | some _ => ⟨MainOutcome.crashed, 0, n1 + n2, false⟩
          | none => ⟨MainOutcome.completed, 1, n1 + n2, false⟩

/-- C7: when the local source path does not exist on the invoking machine,
`upload_file` aborts immediately with the local-file-missing log and issues
zero remote operations (no SCP transfer, no shell command), raising nothing. -/
theorem upload_file_missing_local_no_remote_ops
    (client : Option (String → CmdResult)) (localExists : String → Bool)
    (scpOk : Bool) (l r pw : String) (h : localExists l = false) :
    (upload_file client localExists scpOk l r pw).ops = []
  ∧ (upload_file client localExists scpOk l r pw).logs
      = [⟨LogLevel.error, "Local file " ++ l ++ " does not exist"⟩]
  ∧ (upload_file client localExists scpOk l r pw).raised = none := by
  refine ⟨?_, ?_, ?_⟩ <;> simp [upload_file, h]

/-- Witness for C7 at the spec's scenario `upload /tmp/nonexistent.txt
/srv/app/run.sh`. -/
theorem upload_file_missing_local_no_remote_ops_witness :
    (upload_file none (fun _ => false) true "/tmp/nonexistent.txt" "/srv/app/run.sh" "pw").ops = []
  ∧ (upload_file none (fun _ => false) true "/tmp/nonexistent.txt" "/srv/app/run.sh" "pw").logs
      = [⟨LogLevel.error, "Local file " ++ "/tmp/nonexistent.txt" ++ " does not exist"⟩]
  ∧ (upload_file none (fun _ => false) true "/tmp/nonexistent.txt" "/srv/app/run.sh" "pw").raised
      = none :=
  upload_file_missing_local_no_remote_ops none (fun _ => false) true
    "/tmp/nonexistent.txt" "/srv/app/run.sh" "pw" rfl

/-- C4: in `upload_file`, when the staged transfer succeeds but the privileged
relocation (`mv`) exits non-zero, only the transfer and the `mv` are issued —
no normalization, ownership or permission command — and the relocation failure
is the only report; more generally a failing normalization stops before
`chown`/`chmod`, and a failing `chown` stops before `chmod`. -/
theorem upload_file_step_failure_short_circuits
    (ex : String → CmdResult) (localExists : String → Bool) (l r pw : String)
    (h : localExists l = true) :
    ((ex (mv_command pw (temp_remote_path l) r)).exitStatus ≠ 0 →
       (upload_file (some ex) localExists true l r pw).ops
         = [RemoteOp.scpTransfer l (temp_remote_path l),
            RemoteOp.shellCmd (mv_command pw (temp_remote_path l) r)]
     ∧ (upload_file (some ex) localExists true l r pw).logs
         = [⟨LogLevel.error,
              "Failed to move " ++ temp_remote_path l ++ " to " ++ r ++ ": "
                ++ (ex (mv_command pw (temp_remote_path l) r)).stderrStr⟩])
  ∧ ((ex (mv_command pw (temp_remote_path l) r)).exitStatus = 0 →
     (ex (convert_line_endings_command pw r)).exitStatus ≠ 0 →
       (upload_file (some ex) localExists true l r pw).ops
         = [RemoteOp.scpTransfer l (temp_remote_path l),
            RemoteOp.shellCmd (mv_command pw (temp_remote_path l) r),
            RemoteOp.shellCmd (convert_line_endings_command pw r)])
  ∧ ((ex (mv_command pw (temp_remote_path l) r)).exitStatus = 0 →
     (ex (convert_line_endings_command pw r)).exitStatus = 0 →
     (ex (chown_command pw r)).exitStatus ≠ 0 →
       (upload_file (some ex) localExists true l r pw).ops
         = [RemoteOp.scpTransfer l (temp_remote_path l),
            RemoteOp.shellCmd (mv_command pw (temp_remote_path l) r),
            RemoteOp.shellCmd (convert_line_endings_command pw r),
            RemoteOp.shellCmd (chown_command pw r)])
  ∧ ((ex (mv_command pw (temp_remote_path l) r)).exitStatus = 0 →
     (ex (convert_line_endings_command pw r)).exitStatus = 0 →
     (ex (chown_command pw r)).exitStatus = 0 →
     (ex (chmod_command pw r)).exitStatus ≠ 0 →
       (upload_file (some ex) localExists true l r pw).ops
         = [RemoteOp.scpTransfer l (temp_remote_path l),
            RemoteOp.shellCmd (mv_command pw (temp_remote_path l) r),
            RemoteOp.shellCmd (convert_line_endings_command pw r),
            RemoteOp.shellCmd (chown_command pw r),
            RemoteOp.shellCmd (chmod_command pw r)]) := by
  refine ⟨fun h1 => ⟨?_, ?_⟩, fun h1 h2 => ?_, fun h1 h2 h3 => ?_,
    fun h1 h2 h3 h4 => ?_⟩ <;> simp [upload_file, h, h1, *]

/-- Witness for C4: an oracle on which every remote command exits 1, so the
relocation fails right after the transfer. -/
theorem upload_file_step_failure_short_circuits_witness :
    (upload_file (some (fun _ => ⟨"", "denied", 1⟩)) (fun _ => true) true
        "app.sh" "/srv/app/run.sh" "pw").ops
      = [RemoteOp.scpTransfer "app.sh" (temp_remote_path "app.sh"),
         RemoteOp.shellCmd (mv_command "pw" (temp_remote_path "app.sh") "/srv/app/run.sh")] :=
  (((upload_file_step_failure_short_circuits (fun _ => ⟨"", "denied", 1⟩) (fun _ => true)
    "app.sh" "/srv/app/run.sh" "pw" rfl).1 (by decide)).1)

/-- C5: when the transfer succeeds and all four privileged commands exit 0,
`upload_file` reports overall success and issues its remote commands in the
strict order transfer → relocate (`mv`) → line-ending normalization (`sed`
stripping trailing CR) → ownership change (`chown mysite:mysite`) → permission
change (`chmod +x`), each applied to the final remote path. -/
theorem upload_file_all_steps_succeed
    (ex : String → CmdResult) (localExists : String → Bool) (l r pw : String)
    (h : localExists l = true)
    (h1 : (ex (mv_command pw (temp_remote_path l) r)).exitStatus = 0)
    (h2 : (ex (convert_line_endings_command pw r)).exitStatus = 0)
    (h3 : (ex (chown_command pw r)).exitStatus = 0)
    (h4 : (ex (chmod_command pw r)).exitStatus = 0) :
    (upload_file (some ex) localExists true l r pw).ops
      = [RemoteOp.scpTransfer l (temp_remote_path l),
         RemoteOp.shellCmd (mv_command pw (temp_remote_path l) r),
         RemoteOp.shellCmd (convert_line_endings_command pw r),
         RemoteOp.shellCmd (chown_command pw r),
         RemoteOp.shellCmd (chmod_command pw r)]
  ∧ (upload_file (some ex) localExists true l r pw).logs
      = [⟨LogLevel.info, "Successfully uploaded " ++ l ++ " to " ++ r⟩,
         ⟨LogLevel.info, "Successfully converted line endings of " ++ r ++ " to LF"⟩]
  ∧ convert_line_endings_command pw r
      = "echo " ++ pw ++ " | sudo -S sed -i \"s/\\r$//\" " ++ r
  ∧ chown_command pw r = "echo " ++ pw ++ " | sudo -S chown mysite:mysite " ++ r
  ∧ chmod_command pw r = "echo " ++ pw ++ " | sudo -S chmod +x " ++ r := by
  refine ⟨?_, ?_, rfl, rfl, rfl⟩ <;> simp [upload_file, h, h1, h2, h3, h4]

/-- Witness for C5: an oracle on which every remote command exits 0. -/
theorem upload_file_all_steps_succeed_witness :
    (upload_file (some (fun _ => ⟨"", "", 0⟩)) (fun _ => true) true
        "app.sh" "/srv/app/run.sh" "pw").ops
      = [RemoteOp.scpTransfer "app.sh" (temp_remote_path "app.sh"),
         RemoteOp.shellCmd (mv_command "pw" (temp_remote_path "app.sh") "/srv/app/run.sh"),
         RemoteOp.shellCmd (convert_line_endings_command "pw" "/srv/app/run.sh"),
         RemoteOp.shellCmd (chown_command "pw" "/srv/app/run.sh"),
         RemoteOp.shellCmd (chmod_command "pw" "/srv/app/run.sh")] :=
  ((upload_file_all_steps_succeed (fun _ => ⟨"", "", 0⟩) (fun _ => true)
    "app.sh" "/srv/app/run.sh" "pw" rfl rfl rfl rfl rfl).1)

/-- C10: `upload_file` logs its overall-success line (`Successfully uploaded
... to ...`) as soon as the relocation exits 0 — before the normalization,
ownership and permission steps run — so when relocation succeeds and the
normalization exits non-zero, the run reports both the success and that
step's failure. -/
theorem upload_file_premature_success_report
    (ex : String → CmdResult) (localExists : String → Bool) (l r pw : String)
    (h : localExists l = true)
    (h1 : (ex (mv_command pw (temp_remote_path l) r)).exitStatus = 0) :
    ((upload_file (some ex) localExists true l r pw).logs).head?
      = some ⟨LogLevel.info, "Successfully uploaded " ++ l ++ " to " ++ r⟩
  ∧ ((ex (convert_line_endings_command pw r)).exitStatus ≠ 0 →
      (upload_file (some ex) localExists true l r pw).logs
        = [⟨LogLevel.info, "Successfully uploaded " ++ l ++ " to " ++ r⟩,
           ⟨LogLevel.error,
             "Failed to convert line endings of " ++ r ++ " to LF: "
               ++ (ex (convert_line_endings_command pw r)).stderrStr⟩]) := by
  constructor
  · by_cases h2 : (ex (convert_line_endings_command pw r)).exitStatus = 0
    · by_cases h3 : (ex (chown_command pw r)).exitStatus = 0
      · by_cases h4 : (ex (chmod_command pw r)).exitStatus = 0
        · simp [upload_file, h, h1, h2, h3, h4]
        · simp [upload_file, h, h1, h2, h3, h4]
      · simp [upload_file, h, h1, h2, h3]
    · simp [upload_file, h, h1, h2]
  · intro h2
    simp [upload_file, h, h1, h2]

/-- Witness for C10: an oracle on which the relocation exits 0 but the
normalization exits 1; both the success line and the failure line are logged. -/
theorem upload_file_premature_success_report_witness :
    (upload_file
        (some (fun c => if c = convert_line_endings_command "pw" "/srv/app/run.sh"
                        then ⟨"", "sed: err", 1⟩ else ⟨"", "", 0⟩))
        (fun _ => true) true "app.sh" "/srv/app/run.sh" "pw").logs
      = [⟨LogLevel.info, "Successfully uploaded " ++ "app.sh" ++ " to " ++ "/srv/app/run.sh"⟩,
         ⟨LogLevel.error,
           "Failed to convert line endings of " ++ "/srv/app/run.sh" ++ " to LF: "
             ++ ((fun c => if c = convert_line_endings_command "pw" "/srv/app/run.sh"
                           then (⟨"", "sed: err", 1⟩ : CmdResult) else ⟨"", "", 0⟩)
                  (convert_line_endings_command "pw" "/srv/app/run.sh")).stderrStr⟩] :=
  ((upload_file_premature_success_report
      (fun c => if c = convert_line_endings_command "pw" "/srv/app/run.sh"
                then ⟨"", "sed: err", 1⟩ else ⟨"", "", 0⟩)
      (fun _ => true) "app.sh" "/srv/app/run.sh" "pw" rfl (by decide)).2 (by decide))

/-- C6: `create_remote_directory` issues no creation command when the existence
probe exits 0 (so two calls on such a path perform exactly two probes and no
creation attempt), and issues exactly one creation command — with the supplied
credential embedded in it — whenever the probe exits non-zero, whatever the
actual state of the path. -/
theorem create_remote_directory_probe_gate
    (ex : String → CmdResult) (d pw : String) :
    ((ex (command_check d)).exitStatus = 0 →
       (create_remote_directory (some ex) d pw).ops = [RemoteOp.shellCmd (command_check d)]
     ∧ (create_remote_directory (some ex) d pw).ops
         ++ (create_remote_directory (some ex) d pw).ops
         = [RemoteOp.shellCmd (command_check d), RemoteOp.shellCmd (command_check d)])
  ∧ ((ex (command_check d)).exitStatus ≠ 0 →
       (create_remote_directory (some ex) d pw).ops
         = [RemoteOp.shellCmd (command_check d), RemoteOp.shellCmd (mkdir_command pw d)]
     ∧ ∃ pre post, mkdir_command pw d = pre ++ pw ++ post) := by
  constructor
  · intro h1
    refine ⟨?_, ?_⟩ <;> simp [create_remote_directory, h1]
  · intro h1
    refine ⟨by simp [create_remote_directory, h1],
      "echo ", " | sudo -S mkdir -p " ++ d, ?_⟩
    simp [mkdir_command, String.append_assoc]

/-- Witness for C6 at the spec's scenario `create_dir /srv/app/bin` with a
probe that exits 0: only the probe is issued. -/
theorem create_remote_directory_probe_gate_witness :
    (create_remote_directory (some (fun _ => ⟨"", "", 0⟩)) "/srv/app/bin" "pw").ops
      = [RemoteOp.shellCmd (command_check "/srv/app/bin")] :=
  ((create_remote_directory_probe_gate (fun _ => ⟨"", "", 0⟩) "/srv/app/bin" "pw").1
    (by decide)).1

/-- C8: the dispatcher `execute_command` is shared by the one-shot and the
interactive entry points, and when a required positional argument is absent
(`None`) it solicits the value with a synchronous `input(...)` prompt (the
reply queue `q`) and then proceeds with the stripped reply, instead of failing:
`create_dir` and `dir` prompt once for the directory path, `upload` prompts for
the local and the remote path. -/
theorem execute_command_prompts_for_missing_args
    (env : RunEnv) (q : List String) (pw : String) :
    (execute_command env q ⟨some "create_dir", pw, none, none, none⟩
       = ofOp (create_remote_directory env.client (pyStrip (q.headD "")) pw) 1)
  ∧ (execute_command env q ⟨some "dir", pw, none, none, none⟩
       = ofOp (list_directory env.client (pyStrip (q.headD ""))) 1)
  ∧ (execute_command env q ⟨some "upload", pw, none, none, none⟩
       = ofOp (upload_file env.client env.localExists env.scpOk (pyStrip (q.headD ""))
                 (pyStrip ((q.drop 1).headD "")) pw) 2)
  ∧ (execute_command env q ⟨some "create_dir", pw, none, none, none⟩).promptCount = 1
  ∧ (execute_command env q ⟨some "dir", pw, none, none, none⟩).promptCount = 1
  ∧ (execute_command env q ⟨some "upload", pw, none, none, none⟩).promptCount = 2 :=
  ⟨rfl, rfl, rfl, rfl, rfl, rfl⟩

/-- The interactive loop stops early exactly at an input line whose stripped
content is `exit`; interrupts, faults and all other lines fall through to the
rest of the events. -/
theorem interactive_mode_terminates_iff (evs : List LoopEvent) :
    (interactive_mode evs).terminated = true ↔ ∃ e ∈ evs, isExitLine e = true := by
  induction evs with
  | nil => simp [interactive_mode]
  | cons e rest ih =>
    cases e with
    | interrupt => simpa [interactive_mode, isExitLine] using ih
    | line s fault =>
      by_cases h2 : pyStrip s = "exit"
      · have h1 : ¬pyStrip s = "" := by rw [h2]; decide
        simp [interactive_mode, isExitLine, h1, h2]
      · by_cases h1 : pyStrip s = ""
        · simp [interactive_mode, isExitLine, h1, h2, ih]
        · by_cases h3 : pyStrip s = "help" ∨ pyStrip s = "h" ∨ pyStrip s = "-h" ∨ pyStrip s = "--help"
          · simp [interactive_mode, isExitLine, h1, h2, h3, ih]
          · cases fault with
            | some msg => simp [interactive_mode, isExitLine, h1, h2, h3, ih]
            | none => simp [interactive_mode, isExitLine, h1, h2, h3, ih]

/-- C9: in the interactive loop, a `KeyboardInterrupt` while awaiting input
prints the notice and the loop continues with the remaining events; a command
line whose execution raises has its error caught and reported and the loop
continues; and the loop terminates exactly when some input line strips to the
literal `exit`. -/
theorem interactive_mode_loop_control (rest : List LoopEvent) (s msg : String)
    (h1 : pyStrip s ≠ "") (h2 : pyStrip s ≠ "exit")
    (h3 : ¬(pyStrip s = "help" ∨ pyStrip s = "h" ∨ pyStrip s = "-h" ∨ pyStrip s = "--help")) :
    (interactive_mode (LoopEvent.interrupt :: rest)).terminated
      = (interactive_mode rest).terminated
  ∧ (interactive_mode (LoopEvent.interrupt :: rest)).outputs
      = keyboard_interrupt_notice :: (interactive_mode rest).outputs
  ∧ (interactive_mode (LoopEvent.line s (some msg) :: rest)).terminated
      = (interactive_mode rest).terminated
  ∧ (interactive_mode (LoopEvent.line s (some msg) :: rest)).outputs
      = ("Error: " ++ msg) :: (interactive_mode rest).outputs
  ∧ ((interactive_mode rest).terminated = true ↔ ∃ e ∈ rest, isExitLine e = true) := by
  refine ⟨rfl, rfl, ?_, ?_, interactive_mode_terminates_iff rest⟩ <;>
    simp [interactive_mode, h1, h2, h3]

/-- Witness for C9: a faulting `dir` command is reported and the loop goes on
to process the following `exit` line. -/
theorem interactive_mode_loop_control_witness :
    (interactive_mode [LoopEvent.line "dir /srv/app" (some "boom"),
        LoopEvent.line "exit" none]).terminated
      = (interactive_mode [LoopEvent.line "exit" none]).terminated :=
  (interactive_mode_loop_control [LoopEvent.line "exit" none] "dir /srv/app" "boom"
    (by decide) (by decide) (by decide)).2.2.1

/-- A remote oracle on which every command exits 0 with empty output. -/
def allZeroExec : String → CmdResult := fun _ => ⟨"", "", 0⟩

/-- A quiet outside world: connects succeed, every remote command exits 0,
every local file exists, SCP succeeds, no queued prompts or events. -/
def quietEnv : MainEnv := ⟨false, allZeroExec, fun _ => true, true, [], []⟩

/-- Counterexample to C1: on the no-command/help-only path `main` returns
before an `SSHConfig` is ever constructed, so the release operation runs zero
times — not exactly once — even though the run completes normally. -/
theorem mainEntry_help_path_zero_closes :
    (mainEntry quietEnv ⟨"host", 22, "bob", "pw", false, none, none, none, none⟩).closeCalls = 0
  ∧ (mainEntry quietEnv ⟨"host", 22, "bob", "pw", false, none, none, none, none⟩).outcome
      = MainOutcome.completed :=
  ⟨rfl, rfl⟩

/-- C1 (amended): `ssh.close()` runs exactly once on the runs that construct a
session handle and complete without an uncaught exception, and zero times
otherwise — on the help-only path (no handle is constructed) and on every path
where `connect` or the dispatched operation raises, since `main` has no
try/finally around the session. -/
theorem mainEntry_close_calls (env : MainEnv) (args : MainArgs) :
    (mainEntry env args).closeCalls
      = if (mainEntry env args).outcome = MainOutcome.completed
            ∧ (mainEntry env args).helpShown = false
        then 1 else 0 := by
  unfold mainEntry
  repeat' split
  all_goals simp_all

/-- Counterexample to C2: with valid connection parameters the constructor
already authenticates once and `main` then calls `ssh.connect()` again, so a
one-shot run performs two authentication attempts, not one. -/
theorem mainEntry_two_auth_attempts :
    (mainEntry quietEnv ⟨"host", 22, "bob", "pw", false, some "exit", none, none, none⟩).authAttempts
      = 2
  ∧ (mainEntry quietEnv
      ⟨"host", 22, "bob", "pw", false, some "exit", none, none, none⟩).authAttempts ≠ 1 :=
  ⟨rfl, by decide⟩

/-- Reduction of `SSHConfig.connect` with valid details and a succeeding
underlying `connect`. -/
theorem SSHConfig.connect_ok (ex : String → CmdResult) (c : SSHConfig)
    (hv : valid_details c = true) :
    SSHConfig.connect false ex c = (some { c with ssh_client := some ex }, 1) := by
  simp [SSHConfig.connect, hv]

/-- Reduction of `SSHConfig.connect` with valid details and a raising
underlying `connect`. -/
theorem SSHConfig.connect_raise (ex : String → CmdResult) (c : SSHConfig)
    (hv : valid_details c = true) :
    SSHConfig.connect true ex c = (none, 1) := by
  simp [SSHConfig.connect, hv]

/-- Reduction of `SSHConfig.connect` with invalid details: no attempt. -/
theorem SSHConfig.connect_invalid (cr : Bool) (ex : String → CmdResult) (c : SSHConfig)
    (hv : valid_details c = false) :
    SSHConfig.connect cr ex c = (some c, 0) := by
  simp [SSHConfig.connect, hv]

/-- C2 (amended): past the help-only path, a run of `main` attempts
authentication exactly twice when the parameters are valid and the underlying
`connect` does not raise (once in `SSHConfig.__init__`, once more in `main`'s
explicit `ssh.connect()`), exactly once when the first attempt raises (which
crashes the run), and zero times when a parameter is missing. -/
theorem mainEntry_auth_attempts (env : MainEnv) (args : MainArgs)
    (h : (args.command.isNone && !args.interactive) = false) :
    (valid_details ⟨args.name, args.port, args.username, args.password, none⟩ = true →
       env.connectRaises = false → (mainEntry env args).authAttempts = 2)
  ∧ (valid_details ⟨args.name, args.port, args.username, args.password, none⟩ = true →
       env.connectRaises = true →
       (mainEntry env args).authAttempts = 1
     ∧ (mainEntry env args).outcome = MainOutcome.crashed)
  ∧ (valid_details ⟨args.name, args.port, args.username, args.password, none⟩ = false →
       (mainEntry env args).authAttempts = 0) := by
  refine ⟨fun hv hc => ?_, fun hv hc => ?_, fun hv => ?_⟩
  · have hv' := hv
    simp only [valid_details] at hv'
    unfold mainEntry
    rw [if_neg (by simp [h])]
    simp only [hc, SSHConfig.connect_ok, valid_details, hv']
    repeat' split
    all_goals rfl
  · have hv' := hv
    simp only [valid_details] at hv'
    unfold mainEntry
    rw [if_neg (by simp [h])]
    simp only [hc, SSHConfig.connect_raise, valid_details, hv']
    constructor <;> first | rfl | trivial
  · have hv' := hv
    simp only [valid_details] at hv'
    unfold mainEntry
    rw [if_neg (by simp [h])]
    simp only [SSHConfig.connect_invalid, valid_details, hv']
    repeat' split
    all_goals rfl

/-- Witness for the amended C2: a concrete valid one-shot run makes exactly
two authentication attempts. -/
theorem mainEntry_auth_attempts_witness :
    (mainEntry quietEnv
        ⟨"host", 22, "bob", "pw", false, some "exit", none, none, none⟩).authAttempts = 2 :=
  (mainEntry_auth_attempts quietEnv
    ⟨"host", 22, "bob", "pw", false, some "exit", none, none, none⟩ rfl).1 rfl rfl

/-- Counterexample to C3: with the empty hostname of the spec's scenario, a
one-shot `check_sudo` run does not fail gracefully — the `AttributeError`
raised by the operation on the `None` client propagates out of `main` and
crashes the process (and `close` is skipped). -/
theorem empty_hostname_one_shot_crashes :
    (mainEntry quietEnv
        ⟨"", 22, "bob", "pw", false, some "check_sudo", none, none, none⟩).outcome
      = MainOutcome.crashed
  ∧ (mainEntry quietEnv
        ⟨"", 22, "bob", "pw", false, some "check_sudo", none, none, none⟩).closeCalls = 0 :=
  ⟨rfl, rfl⟩

/-- C3 (amended): with a missing connection parameter (empty hostname), no
connection attempt is made and the handle reports not-connected; every
subsequently invoked operation (`check_sudo`, `create_dir`, `upload` on an
existing local file, `dir`) raises on the `None` client having issued zero
remote operations; the interactive loop catches such an error and continues to
the next line, but a one-shot run crashes with the error uncaught (so the
process does crash in that mode, and `close` is skipped). -/
theorem missing_params_degraded_behavior (port : Int) (user pw d l r m : String)
    (ex : String → CmdResult) (lE : String → Bool) (scpOk : Bool)
    (cr a b : Bool) (q : List String) (evs : List LoopEvent)
    (dp lp rp : Option String)
    (hl : lE l = true) :
    SSHConfig.connect cr ex ⟨"", port, user, pw, none⟩ = (some ⟨"", port, user, pw, none⟩, 0)
  ∧ SSHConfig.is_connected a b ⟨"", port, user, pw, none⟩ = false
  ∧ (check_sudo_privileges none).raised = some noneClientError
  ∧ (check_sudo_privileges none).ops = []
  ∧ (create_remote_directory none d pw).raised = some noneClientError
  ∧ (create_remote_directory none d pw).ops = []
  ∧ (upload_file none lE scpOk l r pw).raised = some noneClientError
  ∧ (upload_file none lE scpOk l r pw).ops = []
  ∧ (list_directory none d).raised = some noneClientError
  ∧ (list_directory none d).ops = []
  ∧ (mainEntry ⟨cr, ex, lE, scpOk, q, evs⟩
        ⟨"", port, user, pw, false, some "check_sudo", dp, lp, rp⟩).outcome
      = MainOutcome.crashed
  ∧ (mainEntry ⟨cr, ex, lE, scpOk, q, evs⟩
        ⟨"", port, user, pw, false, some "check_sudo", dp, lp, rp⟩).closeCalls = 0
  ∧ (interactive_mode [LoopEvent.line "check_sudo" (some m),
        LoopEvent.line "exit" none]).terminated = true := by
  refine ⟨rfl, rfl, rfl, rfl, rfl, rfl, ?_, ?_, rfl, rfl, rfl, rfl, rfl⟩ <;>
    simp [upload_file, hl]

/-- Witness for the amended C3 at the spec's concrete scenario
`("", 22, "bob", "pw")`. -/
theorem missing_params_degraded_behavior_witness :
    (upload_file none (fun _ => true) true "app.sh" "/srv/app/run.sh" "pw").raised
      = some noneClientError
  ∧ (upload_file none (fun _ => true) true "app.sh" "/srv/app/run.sh" "pw").ops = [] :=
  ⟨(missing_params_degraded_behavior 22 "bob" "pw" "/srv/app" "app.sh" "/srv/app/run.sh" "boom"
      allZeroExec (fun _ => true) true false false false [] [] none none none
      rfl).2.2.2.2.2.2.1,
   (missing_params_degraded_behavior 22 "bob" "pw" "/srv/app" "app.sh" "/srv/app/run.sh" "boom"
      allZeroExec (fun _ => true) true false false false [] [] none none none
      rfl).2.2.2.2.2.2.2.1⟩
